import Mathlib

/-!
Verification development for the Creatio MCP Connect server.

The TypeScript sources are shallowly embedded here:
  * `server/creatio-client.ts` — forms-based login, Set-Cookie extraction,
    session storage, OData query building and response classification;
  * `server/mcp-server.ts` (bundled after `server/routes.ts`) — the tool
    registry `MCP_TOOLS` and the `MCPServer` dispatcher;
  * `server/mcp-sse-server.ts` — the streaming list-tools declaration, the
    tool handlers, and the session-registry message routing;
  * the dashboard documentation panel component — its `mcpTools` catalogue.

JavaScript strings are modelled as `List Char` (named `Str` below);
JavaScript truthiness is modelled explicitly wherever the source branches
on it.  Network effects are modelled by passing the upstream response as
an explicit argument and, on the dispatch side, by returning a trace of
the upstream calls an execution performs.
-/

namespace CreatioConnect

/-- JavaScript strings are modelled as lists of characters. -/
abbrev Str := List Char

/-- Whitespace class used by `String.prototype.trim` and the regex class
backslash-s (the characters that actually occur in cookie headers). -/
def jsWhitespace (c : Char) : Bool :=
  c = ' ' || c = '\t' || c = '\n' || c = '\r' || c = '\x0b' || c = '\x0c'

/-- Model of `String.prototype.trim`: drop whitespace from both ends. -/
def trimStr (s : Str) : Str :=
  ((s.dropWhile jsWhitespace).reverse.dropWhile jsWhitespace).reverse

/-- Whether `needle` occurs at the very start of `hay`. -/
def leadsWith : Str → Str → Bool
  | [], _ => true
  | _ :: _, [] => false
  | a :: as, b :: bs => a = b && leadsWith as bs

/-- Model of `String.prototype.includes`: substring occurrence test. -/
def containsSub (needle : Str) : Str → Bool
  | [] => leadsWith needle []
  | c :: rest => leadsWith needle (c :: rest) || containsSub needle rest

/-- Join a list of strings with a separator (`Array.prototype.join`). -/
def joinWith (sep : Str) : List Str → Str
  | [] => []
  | [x] => x
  | x :: y :: xs => x ++ sep ++ joinWith sep (y :: xs)

/-- Decimal digit to character, used to render numbers into query strings. -/
def digitChar (n : Nat) : Char :=
  match n with
  | 0 => '0' | 1 => '1' | 2 => '2' | 3 => '3' | 4 => '4'
  | 5 => '5' | 6 => '6' | 7 => '7' | 8 => '8' | 9 => '9'
  | 10 => 'A' | 11 => 'B' | 12 => 'C' | 13 => 'D' | 14 => 'E'
  | _ => 'F'

/-- Fuel-driven decimal rendering of a natural number. -/
def natToStrGo : Nat → Nat → Str
  | 0, _ => []
  | fuel + 1, n => if n < 10 then [digitChar n] else natToStrGo fuel (n / 10) ++ [digitChar (n % 10)]

/-- Decimal rendering of a natural number (template-literal interpolation
of a JavaScript number). -/
def natToStr (n : Nat) : Str := natToStrGo (n + 1) n

/-! ## Cookie extraction (`CreatioClient.authenticate`, creatio-client.ts 56-99) -/

/-- The regex character class `[A-Za-z_]` from the split lookahead. -/
def identStartChar (c : Char) : Bool :=
  ('A' ≤ c && c ≤ 'Z') || ('a' ≤ c && c ≤ 'z') || c = '_'

/-- The regex character class `[A-Za-z0-9_-]` from the split lookahead. -/
def identContChar (c : Char) : Bool :=
  identStartChar c || ('0' ≤ c && c ≤ '9') || c = '-'

/-- The lookahead of the split regex: does the text after a comma match
optional whitespace, then an identifier starting with `[A-Za-z_]`, then
an equals sign?  Mirrors the lookahead group of the source regex. -/
def cookieLookahead (s : Str) : Bool :=
  match s.dropWhile jsWhitespace with
  | [] => false
  | c :: rest =>
    identStartChar c &&
      (match rest.dropWhile identContChar with
       | '=' :: _ => true
       | _ => false)

/-- Worker for the combined-header split: scan for commas whose following
text matches the lookahead, and break the string there (the comma itself is
consumed, as `String.prototype.split` does). -/
def splitSetCookieGo (acc : Str) : Str → List Str
  | [] => [acc.reverse]
  | c :: rest =>
    if c = ',' && cookieLookahead rest then acc.reverse :: splitSetCookieGo [] rest
    else splitSetCookieGo (c :: acc) rest

/-- Model of `rawCookie.split` with the lookahead regex (creatio-client.ts 63). -/
def splitSetCookie (s : Str) : List Str := splitSetCookieGo [] s

/-- Model of `cookieHeader.match` against the anchored regex matching a
non-empty run of non-equals characters, an equals sign, and a run of
non-semicolon characters, followed by the `.trim()` of both captures
(creatio-client.ts 71-74).  `none` when the regex does not match. -/
def parseCookiePair (s : Str) : Option (Str × Str) :=
  let name := s.takeWhile (fun c => c ≠ '=')
  match s.dropWhile (fun c => c ≠ '=') with
  | '=' :: tail =>
    if name.isEmpty then none
    else some (trimStr name, trimStr (tail.takeWhile (fun c => c ≠ ';')))
  | _ => none

/-- The four cookie names the client retains (creatio-client.ts 80). -/
def knownCookieNames : List Str :=
  ["BPMCSRF".toList, ".ASPXAUTH".toList, "BPMLOADER".toList, "UserName".toList]

/-- The extraction loop over the header list (creatio-client.ts 67-84):
collects the retained `name=value` parts in discovery order and records the
value of the `BPMCSRF` cookie (a later occurrence overwrites an earlier
one, as reassignment does in the source). -/
def collectCookiesGo (parts : List Str) (csrf : Str) : List Str → List Str × Str
  | [] => (parts.reverse, csrf)
  | h :: rest =>
    match parseCookiePair h with
    | none => collectCookiesGo parts csrf rest
    | some (n, v) =>
      let csrf1 := if n = "BPMCSRF".toList then v else csrf
      let parts1 :=
        if knownCookieNames.contains n then (n ++ '=' :: v) :: parts else parts
      collectCookiesGo parts1 csrf1 rest

/-- Cookie-parts and CSRF-token accumulation over all extracted headers. -/
def collectCookies (headers : List Str) : List Str × Str :=
  collectCookiesGo [] [] headers

/-- Model of the fallback search `cookies.match` for `BPMCSRF=` followed by
a non-empty run of non-semicolon characters (creatio-client.ts 88-93):
leftmost position where the whole pattern matches. -/
def bpmcsrfFallback : Str → Option Str
  | [] => none
  | c :: rest =>
    if leadsWith "BPMCSRF=".toList (c :: rest) then
      let v := ((c :: rest).drop 8).takeWhile (fun x => x ≠ ';')
      if v.isEmpty then bpmcsrfFallback rest else some v
    else bpmcsrfFallback rest

/-- The cookie string and anti-forgery token assembled by `authenticate`. -/
structure SessionData where
  cookies : Str
  csrfToken : Str
  deriving DecidableEq

/-- The extraction phase of `authenticate` (creatio-client.ts 67-99): build
the retained cookie string, then recover the CSRF token by the fallback
pattern match when it was not captured directly. -/
def extractSession (setCookieHeaders : List Str) : SessionData :=
  let pc := collectCookies setCookieHeaders
  let cookies := joinWith "; ".toList pc.1
  let csrf0 := pc.2
  let csrf :=
    if csrf0.isEmpty && !cookies.isEmpty then
      match bpmcsrfFallback cookies with
      | some v => v
      | none => csrf0
    else csrf0
  { cookies := cookies, csrfToken := csrf }

/-- How the Set-Cookie headers reach the extractor (creatio-client.ts
56-65): either the native multi-value accessor `getSetCookie`, or the
single combined header returned by `headers.get`, which may be absent. -/
inductive SetCookieSource where
  | multi (headers : List Str)
  | single (raw : Option Str)
  deriving DecidableEq

/-- The header list the extraction loop runs over: the accessor result
as-is, or the lookahead split of the combined header when it is truthy,
or the empty list when the header is absent or empty. -/
def headerList : SetCookieSource → List Str
  | .multi hs => hs
  | .single none => []
  | .single (some raw) => if raw.isEmpty then [] else splitSetCookie raw

/-! ## Authentication and session state (`CreatioClient`, creatio-client.ts 14-141) -/

/-- The parsed JSON body of the login endpoint: the upstream status code
field and the optional message (creatio-client.ts 50-54). -/
structure LoginBody where
  Code : Int
  Message : Option Str := none
  deriving DecidableEq

instance {α β : Type} [DecidableEq α] [DecidableEq β] : DecidableEq (Except α β) := fun x y =>
  match x, y with
  | .error a, .error b => if h : a = b then .isTrue (by simp [h]) else .isFalse (by simp [h])
  | .ok a, .ok b => if h : a = b then .isTrue (by simp [h]) else .isFalse (by simp [h])
  | .error _, .ok _ => .isFalse (by simp)
  | .ok _, .error _ => .isFalse (by simp)

/-- The login HTTP response as seen by `authenticate`: HTTP success flag,
status line, the body-parse outcome (`Except.error` carries the message of
the rejection raised by `response.json()`), and the Set-Cookie headers. -/
structure LoginResponse where
  ok : Bool
  status : Nat
  statusText : Str
  body : Except Str LoginBody
  setCookie : SetCookieSource
  deriving DecidableEq

/-- The stored auth session (interface `CreatioSession`). -/
structure CreatioSession where
  cookies : Str
  csrfToken : Str
  expiresAt : Nat
  deriving DecidableEq

/-- Connection configuration (`CreatioConfig` in shared/schema.ts). -/
structure CreatioConfig where
  baseUrl : Str
  username : Str
  password : Str
  deriving DecidableEq

/-- A `CreatioClient` instance: its immutable config and its mutable
`session` field (creatio-client.ts 14-21). -/
structure CreatioClient where
  config : CreatioConfig
  session : Option CreatioSession
  deriving DecidableEq

/-- `sessionTimeout = 30 * 60 * 1000` milliseconds (creatio-client.ts 17). -/
def sessionTimeout : Nat := 30 * 60 * 1000

/-- The ways `authenticate` can throw (creatio-client.ts 46-54 and the
rejection of `response.json()`). -/
inductive AuthError where
  | httpFailure (status : Nat) (statusText : Str)
  | bodyUnparsable (message : Str)
  | rejected (message : Str)
  deriving DecidableEq

/-- Default message used when the body carries a falsy `Message`. -/
def authFailedMsg : Str := "Authentication failed".toList

/-- The session object `authenticate` stores on success (creatio-client.ts
101-105): the extracted cookie string and token, expiring at
`now + sessionTimeout`. -/
def freshSession (resp : LoginResponse) (now : Nat) : CreatioSession :=
  let sd := extractSession (headerList resp.setCookie)
  { cookies := sd.cookies, csrfToken := sd.csrfToken, expiresAt := now + sessionTimeout }

/-- The value computed by a run of `authenticate` (creatio-client.ts
32-106): check the HTTP status, parse the body, check the upstream `Code`
field, then extract cookies and token and build the session expiring at
`now + sessionTimeout`.  An `Except.error` models a thrown exception. -/
def authenticate (resp : LoginResponse) (now : Nat) : Except AuthError CreatioSession :=
  if !resp.ok then .error (.httpFailure resp.status resp.statusText)
  else
    match resp.body with
    | .error m => .error (.bodyUnparsable m)
    | .ok result =>
      if result.Code ≠ 0 then
        .error (.rejected
          (match result.Message with
           | some m => if m.isEmpty then authFailedMsg else m
           | none => authFailedMsg))
      else .ok (freshSession resp now)

/-- The state effect of one `authenticate` call on a client.  In the
source, `this.session = ...` is the final statement of `authenticate`, so
a thrown error (any `Except.error` branch above) leaves the stored session
exactly as it was; a successful run replaces it. -/
def CreatioClient.authRun (c : CreatioClient) (resp : LoginResponse) (now : Nat) :
    CreatioClient × Option AuthError :=
  match authenticate resp now with
  | .error e => (c, some e)
  | .ok s => ({ c with session := some s }, none)

/-- `isSessionValid` (creatio-client.ts 27-30). -/
def CreatioClient.isSessionValid (c : CreatioClient) (now : Nat) : Bool :=
  match c.session with
  | none => false
  | some s => now < s.expiresAt

/-- `ensureAuthenticated` (creatio-client.ts 108-112): re-authenticate
whenever the held session is absent or expired. -/
def CreatioClient.ensureAuth (c : CreatioClient) (resp : LoginResponse) (now : Nat) :
    CreatioClient × Option AuthError :=
  if !(c.isSessionValid now) then c.authRun resp now else (c, none)

/-- `testConnection` (creatio-client.ts 128-141): authenticate, report
success or catch the thrown error into a failure message. -/
def CreatioClient.testConn (c : CreatioClient) (resp : LoginResponse) (now : Nat) :
    CreatioClient × Bool × Option AuthError :=
  match c.authRun resp now with
  | (c1, none) => (c1, true, none)
  | (c1, some e) => (c1, false, some e)

/-! ## Process state and the connect route (creatio-client.ts 281-295,
routes.ts 15-44, mcp-server.ts `MCPServer.setClient`) -/

/-- The two process-wide client pointers: `currentClient` (module level in
creatio-client.ts, read by `getCreatioClient`) and `mcpServer.client`
(the `MCPServer` instance used by the REST dispatch route). -/
structure GlobalState where
  currentClient : Option CreatioClient
  mcpClient : Option CreatioClient
  deriving DecidableEq

/-- `createCreatioClient` (creatio-client.ts 291-295): construct a fresh
client with no session and immediately store it in `currentClient` via
`setCreatioClient`, before any authentication is attempted. -/
def createCreatioClient (g : GlobalState) (cfg : CreatioConfig) :
    GlobalState × CreatioClient :=
  let client : CreatioClient := { config := cfg, session := none }
  ({ g with currentClient := some client }, client)

/-- The `/api/creatio/connect` handler for an already-validated config
(routes.ts 15-44): create the client (which eagerly replaces
`currentClient`), run the connection test against the login response, and
promote the client to `mcpServer.client` only on success.  Because
`currentClient` aliases the very object `testConnection` mutates, the
pointer is updated to the post-test client value. -/
def connectRoute (g : GlobalState) (cfg : CreatioConfig) (resp : LoginResponse)
    (now : Nat) : GlobalState × Bool :=
  let gc := createCreatioClient g cfg
  let tc := gc.2.testConn resp now
  let g2 : GlobalState := { gc.1 with currentClient := some tc.1 }
  let g3 := if tc.2.1 then { g2 with mcpClient := some tc.1 } else g2
  (g3, tc.2.1)

/-- The `test_creatio_connection` tool handler on the streaming path
(mcp-sse-server.ts 251-280): construct a client without touching the
pointer, test, and call `setCreatioClient` only on success. -/
def sseTestConnection (g : GlobalState) (cfg : CreatioConfig) (resp : LoginResponse)
    (now : Nat) : GlobalState × Bool :=
  let client : CreatioClient := { config := cfg, session := none }
  let tc := client.testConn resp now
  let g1 := if tc.2.1 then { g with currentClient := some tc.1 } else g
  (g1, tc.2.1)

/-! ## Query-string building (`CreatioClient.queryAccounts`, creatio-client.ts 143-173) -/

/-- OData query parameters (`QueryParams` in shared/schema.ts): all six
fields optional; `top` and `skip` are numbers, the rest strings. -/
structure QueryParams where
  filter : Option Str := none
  select : Option Str := none
  top : Option Nat := none
  skip : Option Nat := none
  orderby : Option Str := none
  expand : Option Str := none
  deriving DecidableEq

/-- JavaScript truthiness of an optional string: supplied and non-empty. -/
def strTruthy : Option Str → Bool
  | none => false
  | some s => !s.isEmpty

/-- JavaScript truthiness of an optional number: supplied and non-zero. -/
def natTruthy : Option Nat → Bool
  | none => false
  | some n => n ≠ 0

/-- The characters `encodeURIComponent` leaves unescaped. -/
def uriUnreserved (c : Char) : Bool :=
  ('A' ≤ c && c ≤ 'Z') || ('a' ≤ c && c ≤ 'z') || ('0' ≤ c && c ≤ '9') ||
    c = '-' || c = '_' || c = '.' || c = '!' || c = '~' || c = '*' ||
    c = '\x27' || c = '(' || c = ')'

/-- UTF-8 bytes of a code point. -/
def utf8Bytes (n : Nat) : List Nat :=
  if n < 0x80 then [n]
  else if n < 0x800 then [0xC0 + n / 0x40, 0x80 + n % 0x40]
  else if n < 0x10000 then [0xE0 + n / 0x1000, 0x80 + n / 0x40 % 0x40, 0x80 + n % 0x40]
  else [0xF0 + n / 0x40000, 0x80 + n / 0x1000 % 0x40, 0x80 + n / 0x40 % 0x40, 0x80 + n % 0x40]

/-- Percent-escape of one byte, uppercase hex. -/
def percentByte (b : Nat) : Str := ['%', digitChar (b / 16), digitChar (b % 16)]

/-- Model of `encodeURIComponent`. -/
def encodeURIComponent (s : Str) : Str :=
  s.flatMap fun c =>
    if uriUnreserved c then [c] else (utf8Bytes c.toNat).flatMap percentByte

/-- One string-parameter push clause of `queryAccounts` (the pattern
`if (params.x) queryParts.push(...)` with `encodeURIComponent`): pushes
nothing when the field is absent or empty. -/
def strClause (tag : Str) (v : Option Str) : List Str :=
  match v with
  | some s => if !s.isEmpty then [tag ++ encodeURIComponent s] else []
  | none => []

/-- One numeric-parameter push clause of `queryAccounts` (interpolated
without encoding): pushes nothing when the field is absent or zero. -/
def numClause (tag : Str) (v : Option Nat) : List Str :=
  match v with
  | some n => if n ≠ 0 then [tag ++ natToStr n] else []
  | none => []

/-- The sequence of `queryParts.push` statements (creatio-client.ts
146-170), written as list concatenation in the push order: each clause
contributes its rendered parameter exactly when the field is truthy. -/
def buildQueryParts (p : QueryParams) : List Str :=
  strClause ("$filter=".toList) p.filter ++ strClause ("$select=".toList) p.select ++
  numClause ("$top=".toList) p.top ++ numClause ("$skip=".toList) p.skip ++
  strClause ("$orderby=".toList) p.orderby ++ strClause ("$expand=".toList) p.expand

/-- `queryString` (creatio-client.ts 172): the parts joined with `&`
behind a question mark, or the empty string when no part was pushed. -/
def buildQueryString (p : QueryParams) : Str :=
  let parts := buildQueryParts p
  if parts.length > 0 then '?' :: joinWith "&".toList parts else []

/-- One query-parameter slot, as the spec describes the builder: a tagged
optional string (percent-encoded) or a tagged optional number (rendered
in decimal, not encoded). -/
inductive QuerySlot where
  | qstr (tag : Str) (v : Option Str)
  | qnum (tag : Str) (v : Option Nat)

/-- Modelled from the spec sentence: a present (truthy) parameter renders
as its tag followed by its encoded value; an absent one renders nothing. -/
def slotRender : QuerySlot → Option Str
  | .qstr tag v =>
    match v with
    | some s => if s.isEmpty then none else some (tag ++ encodeURIComponent s)
    | none => none
  | .qnum tag v =>
    match v with
    | some n => if n = 0 then none else some (tag ++ natToStr n)
    | none => none

/-- The six slots in the fixed order the spec gives:
filter, select, top, skip, orderby, expand. -/
def querySlots (p : QueryParams) : List QuerySlot :=
  [.qstr "$filter=".toList p.filter, .qstr "$select=".toList p.select,
   .qnum "$top=".toList p.top, .qnum "$skip=".toList p.skip,
   .qstr "$orderby=".toList p.orderby, .qstr "$expand=".toList p.expand]

/-- Modelled from the spec sentence for C5: append exactly the present
parameters, in the fixed order, and produce nothing (no question mark)
when none is present. -/
def queryStringSpec (p : QueryParams) : Str :=
  match (querySlots p).filterMap slotRender with
  | [] => []
  | parts => '?' :: joinWith "&".toList parts

/-! ## Query response classification (creatio-client.ts 180-204) -/

/-- A Creatio Account record (shared/schema.ts `creatioAccountSchema`),
with the fields the dispatcher surfaces. -/
structure CreatioAccount where
  Id : Str
  Name : Str
  Phone : Option Str := none
  Email : Option Str := none
  Web : Option Str := none
  Address : Option Str := none
  City : Option Str := none
  deriving DecidableEq

/-- The HTTP response of the OData query as seen by `queryAccounts`:
status data, the `content-type` header (absent modelled as `none`, which
the source defaults to the empty string), and the body text. -/
structure HttpResponse where
  ok : Bool
  status : Nat
  statusText : Str
  contentType : Option Str
  body : Str
  deriving DecidableEq

/-- The failure classes `queryAccounts` can throw (creatio-client.ts
183-203). -/
inductive QueryError where
  | permissionError (title : Str)
  | requestFailure (status : Nat) (statusText : Str) (body : Str)
  | htmlInsteadOfJson (title : Str)
  | invalidJson (snippet : Str)
  deriving DecidableEq

/-- Case-insensitive character comparison (the regex `i` flag). -/
def ciEq (a b : Char) : Bool := a.toLower = b.toLower

/-- Case-insensitive `leadsWith`. -/
def ciLeads : Str → Str → Bool
  | [], _ => true
  | _ :: _, [] => false
  | a :: as, b :: bs => ciEq a b && ciLeads as bs

/-- Model of `responseText.match` against the case-insensitive title
regex: an opening title tag, a non-empty run of non-angle-bracket
characters, and a closing title tag; leftmost full match wins. -/
def findTitle : Str → Option Str
  | [] => none
  | c :: rest =>
    if ciLeads "<title>".toList (c :: rest) then
      let after := (c :: rest).drop 7
      let t := after.takeWhile (fun x => x ≠ '<')
      if !t.isEmpty && ciLeads "</title>".toList (after.drop t.length) then some t
      else findTitle rest
    else findTitle rest

/-- The response-classification phase of `queryAccounts` (creatio-client.ts
180-204).  `parseOData` stands for `JSON.parse` followed by the
`data.value || []` read: `none` models a parse exception.  The branches
mirror the source: non-success HTML, non-success other, success HTML
(checked independently of the status branches), then JSON parsing. -/
def classifyQueryResponse (parseOData : Str → Option (List CreatioAccount))
    (r : HttpResponse) : Except QueryError (List CreatioAccount) :=
  let contentType := r.contentType.getD []
  if !r.ok then
    if containsSub "text/html".toList contentType then
      .error (.permissionError ((findTitle r.body).getD "Access Denied".toList))
    else
      .error (.requestFailure r.status r.statusText r.body)
  else if containsSub "text/html".toList contentType then
    .error (.htmlInsteadOfJson ((findTitle r.body).getD "Unknown Error".toList))
  else
    match parseOData r.body with
    | some accounts => .ok accounts
    | none => .error (.invalidJson (r.body.take 200))

/-! ## Tool dispatch (mcp-server.ts `MCPServer`, mcp-sse-server.ts
tool handlers).  The REST dispatcher and the streaming dispatcher contain
the same handler logic statement for statement; each definition below
embeds both occurrences and its doc comment cites both. -/

/-- An untyped JavaScript argument value, as found in a tool-call
argument bag. -/
inductive JSVal where
  | undefined
  | jsNull
  | jsStr (s : Str)
  | jsNum (n : Int)
  | jsBool (b : Bool)
  deriving DecidableEq

/-- JavaScript truthiness of an argument value. -/
def JSVal.truthy : JSVal → Bool
  | .undefined => false
  | .jsNull => false
  | .jsStr s => !s.isEmpty
  | .jsNum n => n ≠ 0
  | .jsBool b => b

/-- A tool-call argument bag (`Record<string, unknown>`). -/
abbrev ToolArgs := List (Str × JSVal)

/-- Property read `args.key`: the stored value, or `undefined`. -/
def getArg (args : ToolArgs) (k : Str) : JSVal :=
  (args.lookup k).getD .undefined

/-- Read an argument as an optional string (the effect of the `as string`
casts on the fields the handlers read). -/
def argStr (args : ToolArgs) (k : Str) : Option Str :=
  match getArg args k with
  | .jsStr s => some s
  | _ => none

/-- Read an argument as an optional number. -/
def argNat (args : ToolArgs) (k : Str) : Option Nat :=
  match getArg args k with
  | .jsNum n => some n.toNat
  | _ => none

/-- A tool result (`MCPToolResult`): the text of each content block, plus
the error flag.  Every content block in the source has `type: "text"`, so
only the text is modelled. -/
structure MCPToolRes where
  content : List Str
  isError : Bool := false
  deriving DecidableEq

/-- One upstream network call a dispatch execution performs, recorded so
that "performs no network call" is a statement about the trace. -/
inductive NetCall where
  | loginCall
  | queryCall (p : QueryParams)
  | getCall (id : Str)
  | createCall (body : List (Str × JSVal))
  | updateCall (id : Str) (body : List (Str × JSVal))
  | deleteCall (id : Str)
  deriving DecidableEq

/-- The environment a dispatch runs in: the client pointer the handler
reads (`this.client` on the REST path, `getCreatioClient()` on the
streaming path) and the outcome each upstream operation would produce
(`Except.error` carries the message of a thrown client error). -/
structure DispatchEnv where
  client : Option CreatioClient
  testOutcome : Bool
  queryResult : Except Str (List CreatioAccount)
  getResult : Except Str (Option CreatioAccount)
  createResult : Except Str CreatioAccount
  updateResult : Except Str Unit
  deleteResult : Except Str Unit

/-- The guidance message returned when no client is connected. -/
def notConnectedMsg : Str :=
  "Not connected. Use test_creatio_connection first.".toList

/-- Defaulting `params.top || 25` (JavaScript: zero and absent both fall
back to the default). -/
def jsOrNat (v : Option Nat) (d : Nat) : Nat :=
  match v with
  | some n => if n ≠ 0 then n else d
  | none => d

/-- Defaulting `params.orderby || "Name asc"`. -/
def jsOrStr (v : Option Str) (d : Str) : Str :=
  match v with
  | some s => if !s.isEmpty then s else d
  | none => d

/-- Placeholder for the serialized JSON text of a successful result.  The
pretty-printed payloads (`JSON.stringify(..., null, 2)`) are not inspected
by any property verified here, so the serialization itself is left as a
marker composed from the payload. -/
def serializedNote : Str := "serialized result".toList

/-- `queryAccounts` tool handler (mcp-server.ts `MCPServer.queryAccounts`,
mcp-sse-server.ts `queryAccounts`): the not-connected guard returns
before any network traffic; otherwise the client is queried with the
defaulted parameters. -/
def queryAccountsTool (env : DispatchEnv) (params : QueryParams) :
    Except Str MCPToolRes × List NetCall :=
  match env.client with
  | none => (.ok { content := [notConnectedMsg], isError := true }, [])
  | some _ =>
    let eff : QueryParams :=
      { filter := params.filter, select := params.select,
        top := some (jsOrNat params.top 25), skip := none,
        orderby := some (jsOrStr params.orderby "Name asc".toList), expand := none }
    match env.queryResult with
    | .error m => (.error m, [.queryCall eff])
    | .ok _ => (.ok { content := [serializedNote] }, [.queryCall eff])

/-- `getAccount` tool handler (mcp-server.ts `MCPServer.getAccount`,
mcp-sse-server.ts `getAccount`). -/
def getAccountTool (env : DispatchEnv) (id : Str) :
    Except Str MCPToolRes × List NetCall :=
  match env.client with
  | none => (.ok { content := [notConnectedMsg], isError := true }, [])
  | some _ =>
    match env.getResult with
    | .error m => (.error m, [.getCall id])
    | .ok none =>
      (.ok { content := ["Account not found: ".toList ++ id], isError := true }, [.getCall id])
    | .ok (some _) => (.ok { content := [serializedNote] }, [.getCall id])

/-- The body assembled by the create handler (mcp-server.ts
`MCPServer.createAccount` 582-590, mcp-sse-server.ts `createAccount`
374-382): `Name` unconditionally, each optional field only when its
argument is truthy, in the source order. -/
def buildCreateBody (args : ToolArgs) : List (Str × JSVal) :=
  [("Name".toList, getArg args "name".toList)] ++
  (if (getArg args "phone".toList).truthy then [("Phone".toList, getArg args "phone".toList)] else []) ++
  (if (getArg args "email".toList).truthy then [("Email".toList, getArg args "email".toList)] else []) ++
  (if (getArg args "web".toList).truthy then [("Web".toList, getArg args "web".toList)] else []) ++
  (if (getArg args "address".toList).truthy then [("Address".toList, getArg args "address".toList)] else []) ++
  (if (getArg args "city".toList).truthy then [("City".toList, getArg args "city".toList)] else [])

/-- The body assembled by the update handler (mcp-server.ts
`MCPServer.updateAccount` 616-624, mcp-sse-server.ts `updateAccount`
418-426): every field, `Name` included, only when its argument is truthy,
in the source order. -/
def buildUpdateBody (args : ToolArgs) : List (Str × JSVal) :=
  (if (getArg args "name".toList).truthy then [("Name".toList, getArg args "name".toList)] else []) ++
  (if (getArg args "phone".toList).truthy then [("Phone".toList, getArg args "phone".toList)] else []) ++
  (if (getArg args "email".toList).truthy then [("Email".toList, getArg args "email".toList)] else []) ++
  (if (getArg args "web".toList).truthy then [("Web".toList, getArg args "web".toList)] else []) ++
  (if (getArg args "address".toList).truthy then [("Address".toList, getArg args "address".toList)] else []) ++
  (if (getArg args "city".toList).truthy then [("City".toList, getArg args "city".toList)] else [])

/-- `createAccount` tool handler (both dispatch paths). -/
def createAccountTool (env : DispatchEnv) (args : ToolArgs) :
    Except Str MCPToolRes × List NetCall :=
  match env.client with
  | none => (.ok { content := [notConnectedMsg], isError := true }, [])
  | some _ =>
    let body := buildCreateBody args
    match env.createResult with
    | .error m => (.error m, [.createCall body])
    | .ok _ => (.ok { content := [serializedNote] }, [.createCall body])

/-- `updateAccount` tool handler (both dispatch paths). -/
def updateAccountTool (env : DispatchEnv) (args : ToolArgs) :
    Except Str MCPToolRes × List NetCall :=
  match env.client with
  | none => (.ok { content := [notConnectedMsg], isError := true }, [])
  | some _ =>
    let id := (argStr args "id".toList).getD []
    let body := buildUpdateBody args
    match env.updateResult with
    | .error m => (.error m, [.updateCall id body])
    | .ok _ => (.ok { content := [serializedNote] }, [.updateCall id body])

/-- `deleteAccount` tool handler (both dispatch paths). -/
def deleteAccountTool (env : DispatchEnv) (id : Str) :
    Except Str MCPToolRes × List NetCall :=
  match env.client with
  | none => (.ok { content := [notConnectedMsg], isError := true }, [])
  | some _ =>
    match env.deleteResult with
    | .error m => (.error m, [.deleteCall id])
    | .ok _ => (.ok { content := [serializedNote] }, [.deleteCall id])

/-- `testConnection` tool handler (both dispatch paths): always performs
the login call; the promotion of the client pointer on success is
modelled by `connectRoute` and `sseTestConnection` above. -/
def testConnectionTool (env : DispatchEnv) : Except Str MCPToolRes × List NetCall :=
  (.ok { content := [serializedNote], isError := !env.testOutcome }, [.loginCall])

/-- The query parameters the dispatcher reads out of the argument bag
(the `args as QueryParams` cast: only filter, select, top and orderby are
consumed). -/
def paramsOfArgs (args : ToolArgs) : QueryParams :=
  { filter := argStr args "filter".toList, select := argStr args "select".toList,
    top := argNat args "top".toList, skip := none,
    orderby := argStr args "orderby".toList, expand := none }

/-- `executeTool` (mcp-server.ts 441-483, and the call-tool request
handler of mcp-sse-server.ts 201-245): the switch over the tool name,
the default branch for an unknown name, and the surrounding try/catch
that converts a thrown handler error into a non-fatal error result. -/
def executeTool (env : DispatchEnv) (name : Str) (args : ToolArgs) :
    MCPToolRes × List NetCall :=
  let rt : Except Str MCPToolRes × List NetCall :=
    if name = "test_creatio_connection".toList then testConnectionTool env
    else if name = "query_creatio_accounts".toList then
      queryAccountsTool env (paramsOfArgs args)
    else if name = "get_creatio_account".toList then
      getAccountTool env ((argStr args "id".toList).getD [])
    else if name = "create_creatio_account".toList then
      createAccountTool env args
    else if name = "update_creatio_account".toList then
      updateAccountTool env args
    else if name = "delete_creatio_account".toList then
      deleteAccountTool env ((argStr args "id".toList).getD [])
    else
      (.ok { content := ["Unknown tool: ".toList ++ name], isError := true }, [])
  match rt.1 with
  | .ok res => (res, rt.2)
  | .error m =>
    ({ content := ["Error executing ".toList ++ name ++ ": ".toList ++ m],
       isError := true }, rt.2)

/-- The six registered tool names, in dispatch order. -/
def knownToolNames : List Str :=
  ["test_creatio_connection".toList, "query_creatio_accounts".toList,
   "get_creatio_account".toList, "create_creatio_account".toList,
   "update_creatio_account".toList, "delete_creatio_account".toList]

/-! ## Session-routed transport (mcp-sse-server.ts 483-557) -/

/-- The registry of active transports, keyed by session handle (the
`Map` named `activeTransports`); transports are identified by a number. -/
abbrev Registry := Str → Option Nat

/-- The initially empty registry. -/
def emptyRegistry : Registry := fun _ => none

/-- `activeTransports.set(sessionId, transport)` (mcp-sse-server.ts 503). -/
def registrySet (reg : Registry) (k : Str) (v : Nat) : Registry :=
  fun x => if x = k then some v else reg x

/-- `activeTransports.delete(sessionId)` on connection close
(mcp-sse-server.ts 514). -/
def registryDelete (reg : Registry) (k : Str) : Registry :=
  fun x => if x = k then none else reg x

/-- The response of the message endpoint: the 400 branch, the 404 branch,
or delivery to the found transport. -/
inductive MessageResponse where
  | badRequest (err : Str)
  | notFound (err : Str)
  | handled (transport : Nat)
  deriving DecidableEq

/-- The `/mcp/messages` handler (mcp-sse-server.ts 520-545): 400 when the
`sessionId` query parameter is missing (or empty, which is equally falsy),
404 when the handle is not in the registry, otherwise the message is
handed to the found transport. -/
def postMessage (reg : Registry) (sessionId : Option Str) : MessageResponse :=
  match sessionId with
  | none => .badRequest "Session ID required".toList
  | some sid =>
    if sid.isEmpty then .badRequest "Session ID required".toList
    else
      match reg sid with
      | none => .notFound "Session not found".toList
      | some t => .handled t

/-- Registration on `/mcp/sse` accept (mcp-sse-server.ts 485-509). -/
def sseConnect (reg : Registry) (sid : Str) (transport : Nat) : Registry :=
  registrySet reg sid transport

/-- Teardown on connection close (mcp-sse-server.ts 512-516). -/
def sseClose (reg : Registry) (sid : Str) : Registry :=
  registryDelete reg sid

/-! ## The three tool-catalogue declarations (mcp-server.ts `MCP_TOOLS`,
the streaming list-tools handler, and the dashboard documentation panel) -/

/-- One parameter of a registry/streaming tool declaration. -/
structure ParamDecl where
  pname : Str
  ptype : Str
  pdescr : Str
  deriving DecidableEq

/-- One tool declaration with JSON-schema `properties` and `required`. -/
structure ToolDecl where
  tname : Str
  tdescr : Str
  properties : List ParamDecl
  required : List Str := []
  deriving DecidableEq

/-- The registry declaration `MCP_TOOLS` (mcp-server.ts 280-428). -/
def MCP_TOOLS : List ToolDecl :=
  [{ tname := "test_creatio_connection".toList,
     tdescr := "Test connection to a Creatio CRM instance using Forms authentication".toList,
     properties :=
       [{ pname := "baseUrl".toList, ptype := "string".toList,
          pdescr := "The base URL of the Creatio instance (e.g., https://yourcompany.creatio.com)".toList },
        { pname := "username".toList, ptype := "string".toList,
          pdescr := "Creatio username for authentication".toList },
        { pname := "password".toList, ptype := "string".toList,
          pdescr := "Creatio password for authentication".toList }],
     required := ["baseUrl".toList, "username".toList, "password".toList] },
   { tname := "query_creatio_accounts".toList,
     tdescr := "Query Creatio Account (Customer) records with OData filter expressions".toList,
     properties :=
       [{ pname := "filter".toList, ptype := "string".toList,
          pdescr := "OData $filter expression (e.g., \"contains(Name,\x27Tech\x27)\" or \"Name eq \x27Acme\x27\")".toList },
        { pname := "select".toList, ptype := "string".toList,
          pdescr := "Comma-separated list of fields to return (e.g., \"Id,Name,Phone,Email\")".toList },
        { pname := "top".toList, ptype := "number".toList,
          pdescr := "Maximum number of records to return (1-100, default 25)".toList },
        { pname := "orderby".toList, ptype := "string".toList,
          pdescr := "Sort order (e.g., \"Name asc\" or \"CreatedOn desc\")".toList }] },
   { tname := "get_creatio_account".toList,
     tdescr := "Get a single Creatio Account by its unique ID (GUID)".toList,
     properties :=
       [{ pname := "id".toList, ptype := "string".toList,
          pdescr := "The GUID of the account to retrieve".toList }],
     required := ["id".toList] },
   { tname := "create_creatio_account".toList,
     tdescr := "Create a new Account record in Creatio CRM".toList,
     properties :=
       [{ pname := "name".toList, ptype := "string".toList,
          pdescr := "Account/Company name (required)".toList },
        { pname := "phone".toList, ptype := "string".toList,
          pdescr := "Primary phone number".toList },
        { pname := "email".toList, ptype := "string".toList,
          pdescr := "Primary email address".toList },
        { pname := "web".toList, ptype := "string".toList,
          pdescr := "Website URL".toList },
        { pname := "address".toList, ptype := "string".toList,
          pdescr := "Street address".toList },
        { pname := "city".toList, ptype := "string".toList,
          pdescr := "City".toList }],
     required := ["name".toList] },
   { tname := "update_creatio_account".toList,
     tdescr := "Update an existing Account record in Creatio CRM".toList,
     properties :=
       [{ pname := "id".toList, ptype := "string".toList,
          pdescr := "The GUID of the account to update".toList },
        { pname := "name".toList, ptype := "string".toList,
          pdescr := "Account/Company name".toList },
        { pname := "phone".toList, ptype := "string".toList,
          pdescr := "Primary phone number".toList },
        { pname := "email".toList, ptype := "string".toList,
          pdescr := "Primary email address".toList },
        { pname := "web".toList, ptype := "string".toList,
          pdescr := "Website URL".toList },
        { pname := "address".toList, ptype := "string".toList,
          pdescr := "Street address".toList },
        { pname := "city".toList, ptype := "string".toList,
          pdescr := "City".toList }],
     required := ["id".toList] },
   { tname := "delete_creatio_account".toList,
     tdescr := "Delete an Account record from Creatio CRM".toList,
     properties :=
       [{ pname := "id".toList, ptype := "string".toList,
          pdescr := "The GUID of the account to delete".toList }],
     required := ["id".toList] }]

/-- The list-tools declaration of the streaming server (mcp-sse-server.ts
40-198), declared independently of `MCP_TOOLS` in the source. -/
def sseTools : List ToolDecl :=
  [{ tname := "test_creatio_connection".toList,
     tdescr := "Test connection to a Creatio CRM instance using Forms authentication".toList,
     properties :=
       [{ pname := "baseUrl".toList, ptype := "string".toList,
          pdescr := "The base URL of the Creatio instance (e.g., https://yourcompany.creatio.com)".toList },
        { pname := "username".toList, ptype := "string".toList,
          pdescr := "Creatio username for authentication".toList },
        { pname := "password".toList, ptype := "string".toList,
          pdescr := "Creatio password for authentication".toList }],
     required := ["baseUrl".toList, "username".toList, "password".toList] },
   { tname := "query_creatio_accounts".toList,
     tdescr := "Query Creatio Account (Customer) records with OData filter expressions".toList,
     properties :=
       [{ pname := "filter".toList, ptype := "string".toList,
          pdescr := "OData $filter expression (e.g., \"contains(Name,\x27Tech\x27)\" or \"Name eq \x27Acme\x27\")".toList },
        { pname := "select".toList, ptype := "string".toList,
          pdescr := "Comma-separated list of fields to return (e.g., \"Id,Name,Phone,Email\")".toList },
        { pname := "top".toList, ptype := "number".toList,
          pdescr := "Maximum number of records to return (1-100, default 25)".toList },
        { pname := "orderby".toList, ptype := "string".toList,
          pdescr := "Sort order (e.g., \"Name asc\" or \"CreatedOn desc\")".toList }] },
   { tname := "get_creatio_account".toList,
     tdescr := "Get a single Creatio Account by its unique ID (GUID)".toList,
     properties :=
       [{ pname := "id".toList, ptype := "string".toList,
          pdescr := "The GUID of the account to retrieve".toList }],
     required := ["id".toList] },
   { tname := "create_creatio_account".toList,
     tdescr := "Create a new Account record in Creatio CRM".toList,
     properties :=
       [{ pname := "name".toList, ptype := "string".toList,
          pdescr := "Account/Company name (required)".toList },
        { pname := "phone".toList, ptype := "string".toList,
          pdescr := "Primary phone number".toList },
        { pname := "email".toList, ptype := "string".toList,
          pdescr := "Primary email address".toList },
        { pname := "web".toList, ptype := "string".toList,
          pdescr := "Website URL".toList },
        { pname := "address".toList, ptype := "string".toList,
          pdescr := "Street address".toList },
        { pname := "city".toList, ptype := "string".toList,
          pdescr := "City".toList }],
     required := ["name".toList] },
   { tname := "update_creatio_account".toList,
     tdescr := "Update an existing Account record in Creatio CRM".toList,
     properties :=
       [{ pname := "id".toList, ptype := "string".toList,
          pdescr := "The GUID of the account to update".toList },
        { pname := "name".toList, ptype := "string".toList,
          pdescr := "Account/Company name".toList },
        { pname := "phone".toList, ptype := "string".toList,
          pdescr := "Primary phone number".toList },
        { pname := "email".toList, ptype := "string".toList,
          pdescr := "Primary email address".toList },
        { pname := "web".toList, ptype := "string".toList,
          pdescr := "Website URL".toList },
        { pname := "address".toList, ptype := "string".toList,
          pdescr := "Street address".toList },
        { pname := "city".toList, ptype := "string".toList,
          pdescr := "City".toList }],
     required := ["id".toList] },
   { tname := "delete_creatio_account".toList,
     tdescr := "Delete an Account record from Creatio CRM".toList,
     properties :=
       [{ pname := "id".toList, ptype := "string".toList,
          pdescr := "The GUID of the account to delete".toList }],
     required := ["id".toList] }]

/-- One parameter of the dashboard panel's catalogue, which records the
required flag as an optional boolean on the parameter itself. -/
structure DashParam where
  pname : Str
  ptype : Str
  pdescr : Str
  required : Option Bool := none
  deriving DecidableEq

/-- One tool of the dashboard panel's catalogue. -/
structure DashTool where
  tname : Str
  tdescr : Str
  parameters : List DashParam
  deriving DecidableEq

/-- The dashboard documentation panel's catalogue `mcpTools` (the
`MCPToolsPanel` component): three tools only. -/
def mcpToolsDash : List DashTool :=
  [{ tname := "query_creatio_accounts".toList,
     tdescr := "Query Creatio Account (Customer) records with OData filters".toList,
     parameters :=
       [{ pname := "filter".toList, ptype := "string".toList,
          pdescr := "OData $filter expression (e.g., contains(Name,\x27Tech\x27))".toList,
          required := some false },
        { pname := "select".toList, ptype := "string".toList,
          pdescr := "Comma-separated fields to return".toList,
          required := some false },
        { pname := "top".toList, ptype := "number".toList,
          pdescr := "Maximum number of records (1-100)".toList,
          required := some false },
        { pname := "orderby".toList, ptype := "string".toList,
          pdescr := "Sort order (e.g., \x27Name asc\x27)".toList,
          required := some false }] },
   { tname := "get_creatio_account".toList,
     tdescr := "Get a single Creatio Account by ID".toList,
     parameters :=
       [{ pname := "id".toList, ptype := "string".toList,
          pdescr := "The GUID of the account to retrieve".toList,
          required := some true }] },
   { tname := "test_creatio_connection".toList,
     tdescr := "Test connection to Creatio instance".toList,
     parameters :=
       [{ pname := "baseUrl".toList, ptype := "string".toList,
          pdescr := "Creatio instance URL".toList,
          required := some true },
        { pname := "username".toList, ptype := "string".toList,
          pdescr := "Creatio username".toList,
          required := some true },
        { pname := "password".toList, ptype := "string".toList,
          pdescr := "Creatio password".toList,
          required := some true }] }]

/-- The comparable signature of a tool: its name and, per parameter in
declaration order, the parameter name, its type, and its required flag. -/
structure ToolSig where
  name : Str
  params : List (Str × Str × Bool)
  deriving DecidableEq

/-- Signature of a registry/streaming declaration: a parameter is required
when its name is listed in the schema's `required` array. -/
def sigOfDecl (t : ToolDecl) : ToolSig :=
  { name := t.tname,
    params := t.properties.map fun p => (p.pname, p.ptype, t.required.contains p.pname) }

/-- Signature of a dashboard declaration: an unset required flag renders
as not required, as the panel does. -/
def sigOfDash (t : DashTool) : ToolSig :=
  { name := t.tname,
    params := t.parameters.map fun p => (p.pname, p.ptype, p.required.getD false) }

/-- The C2 claim as stated: every tool presents an identical signature
across the registry, the streaming list-tools declaration, and the
dashboard panel (same tools, and per tool the same name, parameter
names, types and required flags). -/
def cataloguesAgreeClaim : Prop :=
  MCP_TOOLS.map sigOfDecl = sseTools.map sigOfDecl ∧
  (∀ s, s ∈ MCP_TOOLS.map sigOfDecl ↔ s ∈ mcpToolsDash.map sigOfDash)

/-! ## Concrete inputs used by witnesses and evaluations -/

/-- A valid connection config used for concrete evaluations. -/
def cfgC1 : CreatioConfig :=
  { baseUrl := "https://example.creatio.com".toList,
    username := "apiuser".toList, password := "secret".toList }

/-- A failing login response: upstream HTTP 500 with a non-JSON body. -/
def respC1 : LoginResponse :=
  { ok := false, status := 500, statusText := "Internal Server Error".toList,
    body := .error "Unexpected token".toList, setCookie := .single none }

/-- Process state before any connection attempt. -/
def g0C1 : GlobalState := { currentClient := none, mcpClient := none }

/-- A combined Set-Cookie header carrying all four known cookies, as a
transport without the multi-value accessor delivers them. -/
def rawC3 : Str :=
  ("BPMCSRF=csrf123; path=/, .ASPXAUTH=ticket456; HttpOnly; path=/, " ++
   "BPMLOADER=ldr; path=/, UserName=alice; path=/").toList

/-- The same four Set-Cookie headers via the multi-value accessor. -/
def multiC3 : List Str :=
  ["BPMCSRF=csrf123; path=/".toList, ".ASPXAUTH=ticket456; HttpOnly; path=/".toList,
   "BPMLOADER=ldr; path=/".toList, "UserName=alice; path=/".toList]

/-- A query response with HTTP 200 and an HTML error page. -/
def respC4 : HttpResponse :=
  { ok := true, status := 200, statusText := "OK".toList,
    contentType := some "text/html; charset=utf-8".toList,
    body := "<html><head><title>Access Denied</title></head></html>".toList }

/-- A rejected login: HTTP success but upstream `Code` is non-zero. -/
def respC9 : LoginResponse :=
  { ok := true, status := 200, statusText := "OK".toList,
    body := .ok { Code := 1, Message := some "Invalid credentials".toList },
    setCookie := .single none }

/-- A client holding an already-expired session. -/
def clientC9 : CreatioClient :=
  { config := cfgC1,
    session := some { cookies := "BPMCSRF=old".toList, csrfToken := "old".toList, expiresAt := 5 } }

/-- A dispatch environment with no connected client. -/
def envNone : DispatchEnv :=
  { client := none, testOutcome := false, queryResult := .ok [],
    getResult := .ok none, createResult := .ok { Id := [], Name := [] },
    updateResult := .ok (), deleteResult := .ok () }

/-- An update argument bag whose `phone` argument is the empty string. -/
def argsC10 : ToolArgs :=
  [("id".toList, .jsStr "2f8ed1a6".toList), ("phone".toList, .jsStr []),
   ("city".toList, .jsStr "Boston".toList)]

/-! ## Theorems -/

/-- C4: for every query response with a successful HTTP status whose
content type is HTML, the query operation fails with the
unexpected-content-type classification (the HTML-instead-of-JSON error
with the extracted page title) and never attempts to parse the body as
JSON: the result is the same for every possible parse function, and the
classification runs in the success branch, independently of the
non-success-status branches. -/
theorem success_html_classified_unexpected_content_type
    (parseOData : Str → Option (List CreatioAccount)) (r : HttpResponse)
    (hok : r.ok = true)
    (hhtml : containsSub "text/html".toList (r.contentType.getD []) = true) :
    classifyQueryResponse parseOData r =
      .error (.htmlInsteadOfJson ((findTitle r.body).getD "Unknown Error".toList)) := by
  unfold classifyQueryResponse
  rw [hok]
  rw [if_neg (by simp)]
  rw [if_pos hhtml]

/-- Witness for C4: a concrete 200 response with an HTML error page is
classified as HTML-instead-of-JSON with the page title, for a parse
function that would have rejected the body. -/
theorem success_html_classified_witness :
    classifyQueryResponse (fun _ => none) respC4 =
      .error (.htmlInsteadOfJson "Access Denied".toList) := by
  have h := success_html_classified_unexpected_content_type (fun _ => none) respC4 rfl (by decide)
  exact h.trans (by decide)

/-- C6: dispatching the account-query tool while no client is connected
returns an error tool-result carrying the not-connected guidance message,
and the trace of upstream calls is empty: no network call is performed. -/
theorem query_dispatch_not_connected (env : DispatchEnv) (args : ToolArgs)
    (h : env.client = none) :
    executeTool env ("query_creatio_accounts".toList) args =
      ({ content := [notConnectedMsg], isError := true }, []) := by
  unfold executeTool
  rw [if_neg (by decide), if_pos rfl]
  unfold queryAccountsTool
  rw [h]

/-- Witness for C6: the concrete not-connected environment. -/
theorem query_dispatch_not_connected_witness :
    executeTool envNone ("query_creatio_accounts".toList) [] =
      ({ content := [notConnectedMsg], isError := true }, []) :=
  query_dispatch_not_connected envNone [] rfl

/-- C7: registering a session handle and then closing its connection
removes the handle, so a message posted with that handle gets the 404
session-not-found response, identical to the response for a handle that
was never registered; a message carrying no session handle gets the 400
response. -/
theorem register_close_post_yields_not_found
    (reg regB : Registry) (sid : Str) (transport : Nat)
    (hsid : sid.isEmpty = false) (hB : regB sid = none) :
    postMessage (sseClose (sseConnect reg sid transport) sid) (some sid) =
      .notFound "Session not found".toList ∧
    postMessage regB (some sid) = .notFound "Session not found".toList ∧
    postMessage regB none = .badRequest "Session ID required".toList := by
  refine ⟨?_, ?_, rfl⟩
  · unfold postMessage sseClose sseConnect registryDelete registrySet
    simp [hsid]
  · unfold postMessage
    simp [hsid, hB]

/-- Witness for C7: a concrete handle registered into the empty registry
and closed again. -/
theorem register_close_post_witness :
    postMessage (sseClose (sseConnect emptyRegistry ("abc".toList) 0) ("abc".toList))
        (some ("abc".toList)) = .notFound "Session not found".toList ∧
    postMessage emptyRegistry (some ("abc".toList)) = .notFound "Session not found".toList ∧
    postMessage emptyRegistry none = .badRequest "Session ID required".toList :=
  register_close_post_yields_not_found emptyRegistry emptyRegistry ("abc".toList) 0 (by decide) rfl

/-- C8: dispatching any tool name outside the registry returns an error
tool-result whose content is exactly the unknown-tool message for that
name; the dispatcher is a total function (the model of the source's
try/catch), so no argument bag makes it fail. -/
theorem unknown_tool_dispatch (env : DispatchEnv) (name : Str) (args : ToolArgs)
    (h : name ∉ knownToolNames) :
    executeTool env name args =
      ({ content := ["Unknown tool: ".toList ++ name], isError := true }, []) := by
  simp only [knownToolNames, List.mem_cons, List.not_mem_nil, or_false, not_or] at h
  obtain ⟨h1, h2, h3, h4, h5, h6⟩ := h
  unfold executeTool
  rw [if_neg h1, if_neg h2, if_neg h3, if_neg h4, if_neg h5, if_neg h6]

/-- Witness for C8: a concrete unregistered name. -/
theorem unknown_tool_dispatch_witness :
    executeTool envNone ("frobnicate".toList) [] =
      ({ content := ["Unknown tool: frobnicate".toList], isError := true }, []) := by
  have h := unknown_tool_dispatch envNone ("frobnicate".toList) [] (by decide)
  exact h.trans (by decide)

/-- Helper: membership in the keys of a conditional singleton. -/
theorem mem_map_fst_ite_singleton {α β : Type} {c : Prop} [Decidable c]
    {x : α × β} {k : α} (h : k ∈ (if c then [x] else []).map Prod.fst) :
    c ∧ k = x.1 := by
  split at h
  · simp only [List.map_cons, List.map_nil, List.mem_singleton] at h
    exact ⟨by assumption, h⟩
  · simp at h

/-- Helper: the keys of the update body come only from truthy arguments. -/
theorem buildUpdateBody_mem_fst (args : ToolArgs) (k : Str)
    (h : k ∈ (buildUpdateBody args).map Prod.fst) :
    ((getArg args ("name".toList)).truthy = true ∧ k = "Name".toList) ∨
    ((getArg args ("phone".toList)).truthy = true ∧ k = "Phone".toList) ∨
    ((getArg args ("email".toList)).truthy = true ∧ k = "Email".toList) ∨
    ((getArg args ("web".toList)).truthy = true ∧ k = "Web".toList) ∨
    ((getArg args ("address".toList)).truthy = true ∧ k = "Address".toList) ∨
    ((getArg args ("city".toList)).truthy = true ∧ k = "City".toList) := by
  unfold buildUpdateBody at h
  simp only [List.map_append, List.mem_append, or_assoc] at h
  rcases h with h | h | h | h | h | h
  · exact .inl (mem_map_fst_ite_singleton h)
  · exact .inr (.inl (mem_map_fst_ite_singleton h))
  · exact .inr (.inr (.inl (mem_map_fst_ite_singleton h)))
  · exact .inr (.inr (.inr (.inl (mem_map_fst_ite_singleton h))))
  · exact .inr (.inr (.inr (.inr (.inl (mem_map_fst_ite_singleton h)))))
  · exact .inr (.inr (.inr (.inr (.inr (mem_map_fst_ite_singleton h)))))

/-- Helper: the keys of the create body are the mandatory `Name` plus
keys coming only from truthy optional arguments. -/
theorem buildCreateBody_mem_fst (args : ToolArgs) (k : Str)
    (h : k ∈ (buildCreateBody args).map Prod.fst) :
    k = "Name".toList ∨
    ((getArg args ("phone".toList)).truthy = true ∧ k = "Phone".toList) ∨
    ((getArg args ("email".toList)).truthy = true ∧ k = "Email".toList) ∨
    ((getArg args ("web".toList)).truthy = true ∧ k = "Web".toList) ∨
    ((getArg args ("address".toList)).truthy = true ∧ k = "Address".toList) ∨
    ((getArg args ("city".toList)).truthy = true ∧ k = "City".toList) := by
  unfold buildCreateBody at h
  simp only [List.map_append, List.mem_append, List.map_cons, List.map_nil,
    List.mem_singleton, or_assoc] at h
  rcases h with h | h | h | h | h | h
  · exact .inl h
  · exact .inr (.inl (mem_map_fst_ite_singleton h))
  · exact .inr (.inr (.inl (mem_map_fst_ite_singleton h)))
  · exact .inr (.inr (.inr (.inl (mem_map_fst_ite_singleton h))))
  · exact .inr (.inr (.inr (.inr (.inl (mem_map_fst_ite_singleton h)))))
  · exact .inr (.inr (.inr (.inr (.inr (mem_map_fst_ite_singleton h)))))

/-- Helper: every value stored in the update body is truthy. -/
theorem buildUpdateBody_values_truthy (args : ToolArgs) :
    ∀ p ∈ buildUpdateBody args, p.2.truthy = true := by
  unfold buildUpdateBody
  intro p hp
  simp only [List.mem_append, or_assoc] at hp
  rcases hp with h | h | h | h | h | h <;>
  · split at h
    · simp only [List.mem_singleton] at h
      subst h
      assumption
    · simp at h

/-- Helper: a truthy value is not the empty string. -/
theorem JSVal.truthy_ne_empty {v : JSVal} (h : v.truthy = true) : v ≠ .jsStr [] := by
  intro e
  subst e
  simp [JSVal.truthy] at h

/-- C10: in both the update and the create dispatch, an optional field
whose argument is falsy (absent, null, empty string, zero) is omitted
from the request body sent upstream, and every value the update body
does contain is truthy — so a partial update can never set a field to
the empty string. -/
theorem falsy_optional_fields_omitted (args : ToolArgs) :
    ((getArg args ("name".toList)).truthy = false →
      "Name".toList ∉ (buildUpdateBody args).map Prod.fst) ∧
    ((getArg args ("phone".toList)).truthy = false →
      "Phone".toList ∉ (buildUpdateBody args).map Prod.fst ∧
      "Phone".toList ∉ (buildCreateBody args).map Prod.fst) ∧
    ((getArg args ("email".toList)).truthy = false →
      "Email".toList ∉ (buildUpdateBody args).map Prod.fst ∧
      "Email".toList ∉ (buildCreateBody args).map Prod.fst) ∧
    ((getArg args ("web".toList)).truthy = false →
      "Web".toList ∉ (buildUpdateBody args).map Prod.fst ∧
      "Web".toList ∉ (buildCreateBody args).map Prod.fst) ∧
    ((getArg args ("address".toList)).truthy = false →
      "Address".toList ∉ (buildUpdateBody args).map Prod.fst ∧
      "Address".toList ∉ (buildCreateBody args).map Prod.fst) ∧
    ((getArg args ("city".toList)).truthy = false →
      "City".toList ∉ (buildUpdateBody args).map Prod.fst ∧
      "City".toList ∉ (buildCreateBody args).map Prod.fst) ∧
    (∀ p ∈ buildUpdateBody args, p.2 ≠ JSVal.jsStr []) := by
  refine ⟨?_, ?_, ?_, ?_, ?_, ?_, fun p hp => JSVal.truthy_ne_empty (buildUpdateBody_values_truthy args p hp)⟩
  · intro hf hmem
    rcases buildUpdateBody_mem_fst args _ hmem with ⟨ht, _⟩ | ⟨_, hk⟩ | ⟨_, hk⟩ | ⟨_, hk⟩ | ⟨_, hk⟩ | ⟨_, hk⟩
    · rw [hf] at ht; exact Bool.false_ne_true ht
    all_goals exact absurd hk (by decide)
  · intro hf
    constructor
    · intro hmem
      rcases buildUpdateBody_mem_fst args _ hmem with ⟨_, hk⟩ | ⟨ht, _⟩ | ⟨_, hk⟩ | ⟨_, hk⟩ | ⟨_, hk⟩ | ⟨_, hk⟩
      · exact absurd hk (by decide)
      · rw [hf] at ht; exact Bool.false_ne_true ht
      all_goals exact absurd hk (by decide)
    · intro hmem
      rcases buildCreateBody_mem_fst args _ hmem with hk | ⟨ht, _⟩ | ⟨_, hk⟩ | ⟨_, hk⟩ | ⟨_, hk⟩ | ⟨_, hk⟩
      · exact absurd hk (by decide)
      · rw [hf] at ht; exact Bool.false_ne_true ht
      all_goals exact absurd hk (by decide)
  · intro hf
    constructor
    · intro hmem
      rcases buildUpdateBody_mem_fst args _ hmem with ⟨_, hk⟩ | ⟨_, hk⟩ | ⟨ht, _⟩ | ⟨_, hk⟩ | ⟨_, hk⟩ | ⟨_, hk⟩
      · exact absurd hk (by decide)
      · exact absurd hk (by decide)
      · rw [hf] at ht; exact Bool.false_ne_true ht
      all_goals exact absurd hk (by decide)
    · intro hmem
      rcases buildCreateBody_mem_fst args _ hmem with hk | ⟨_, hk⟩ | ⟨ht, _⟩ | ⟨_, hk⟩ | ⟨_, hk⟩ | ⟨_, hk⟩
      · exact absurd hk (by decide)
      · exact absurd hk (by decide)
      · rw [hf] at ht; exact Bool.false_ne_true ht
      all_goals exact absurd hk (by decide)
  · intro hf
    constructor
    · intro hmem
      rcases buildUpdateBody_mem_fst args _ hmem with ⟨_, hk⟩ | ⟨_, hk⟩ | ⟨_, hk⟩ | ⟨ht, _⟩ | ⟨_, hk⟩ | ⟨_, hk⟩
      · exact absurd hk (by decide)
      · exact absurd hk (by decide)
      · exact absurd hk (by decide)
      · rw [hf] at ht; exact Bool.false_ne_true ht
      all_goals exact absurd hk (by decide)
    · intro hmem
      rcases buildCreateBody_mem_fst args _ hmem with hk | ⟨_, hk⟩ | ⟨_, hk⟩ | ⟨ht, _⟩ | ⟨_, hk⟩ | ⟨_, hk⟩
      · exact absurd hk (by decide)
      · exact absurd hk (by decide)
      · exact absurd hk (by decide)
      · rw [hf] at ht; exact Bool.false_ne_true ht
      all_goals exact absurd hk (by decide)
  · intro hf
    constructor
    · intro hmem
      rcases buildUpdateBody_mem_fst args _ hmem with ⟨_, hk⟩ | ⟨_, hk⟩ | ⟨_, hk⟩ | ⟨_, hk⟩ | ⟨ht, _⟩ | ⟨_, hk⟩
      · exact absurd hk (by decide)
      · exact absurd hk (by decide)
      · exact absurd hk (by decide)
      · exact absurd hk (by decide)
      · rw [hf] at ht; exact Bool.false_ne_true ht
      · exact absurd hk (by decide)
    · intro hmem
      rcases buildCreateBody_mem_fst args _ hmem with hk | ⟨_, hk⟩ | ⟨_, hk⟩ | ⟨_, hk⟩ | ⟨ht, _⟩ | ⟨_, hk⟩
      · exact absurd hk (by decide)
      · exact absurd hk (by decide)
      · exact absurd hk (by decide)
      · exact absurd hk (by decide)
      · rw [hf] at ht; exact Bool.false_ne_true ht
      · exact absurd hk (by decide)
  · intro hf
    constructor
    · intro hmem
      rcases buildUpdateBody_mem_fst args _ hmem with ⟨_, hk⟩ | ⟨_, hk⟩ | ⟨_, hk⟩ | ⟨_, hk⟩ | ⟨_, hk⟩ | ⟨ht, _⟩
      · exact absurd hk (by decide)
      · exact absurd hk (by decide)
      · exact absurd hk (by decide)
      · exact absurd hk (by decide)
      · exact absurd hk (by decide)
      · rw [hf] at ht; exact Bool.false_ne_true ht
    · intro hmem
      rcases buildCreateBody_mem_fst args _ hmem with hk | ⟨_, hk⟩ | ⟨_, hk⟩ | ⟨_, hk⟩ | ⟨_, hk⟩ | ⟨ht, _⟩
      · exact absurd hk (by decide)
      · exact absurd hk (by decide)
      · exact absurd hk (by decide)
      · exact absurd hk (by decide)
      · exact absurd hk (by decide)
      · rw [hf] at ht; exact Bool.false_ne_true ht

/-- Witness for C10: a concrete update bag whose `phone` is the empty
string; the assembled body omits `Phone` and contains no empty-string
value. -/
theorem falsy_optional_fields_witness :
    (getArg argsC10 ("phone".toList)).truthy = false ∧
    "Phone".toList ∉ (buildUpdateBody argsC10).map Prod.fst :=
  ⟨by decide, ((falsy_optional_fields_omitted argsC10).2.1 (by decide)).1⟩

/-- Helper: `filterMap` over a cons, expressed through `Option.toList`. -/
theorem filterMap_cons_toList {α β : Type} (g : α → Option β) (x : α) (l : List α) :
    List.filterMap g (x :: l) = (g x).toList ++ List.filterMap g l := by
  cases h : g x <;> simp [List.filterMap_cons, h]

/-- Helper: a string push clause renders exactly the spec's slot. -/
theorem strClause_eq_toList (tag : Str) (v : Option Str) :
    strClause tag v = (slotRender (.qstr tag v)).toList := by
  cases v with
  | none => rfl
  | some s =>
    by_cases h : s.isEmpty = true <;> simp [strClause, slotRender, h]

/-- Helper: a numeric push clause renders exactly the spec's slot. -/
theorem numClause_eq_toList (tag : Str) (v : Option Nat) :
    numClause tag v = (slotRender (.qnum tag v)).toList := by
  cases v with
  | none => rfl
  | some n =>
    by_cases h : n = 0 <;> simp [numClause, slotRender, h]

/-- Helper: the pushed parts are the present slots, in the fixed order. -/
theorem buildQueryParts_eq_slots (p : QueryParams) :
    buildQueryParts p = (querySlots p).filterMap slotRender := by
  unfold querySlots
  rw [filterMap_cons_toList, filterMap_cons_toList, filterMap_cons_toList,
      filterMap_cons_toList, filterMap_cons_toList, filterMap_cons_toList,
      List.filterMap_nil]
  unfold buildQueryParts
  rw [strClause_eq_toList, strClause_eq_toList, numClause_eq_toList,
      numClause_eq_toList, strClause_eq_toList, strClause_eq_toList]
  simp [List.append_assoc]

/-- C5: for every combination of the six query parameters, the built
query string appends exactly the parameters that are present (supplied
and truthy, as the source's falsiness checks read presence), in the
fixed order filter, select, top, skip, orderby, expand, percent-encoding
every appended value except the numeric top and skip, and produces the
empty string — no question mark — when no parameter is present. -/
theorem query_string_appends_exactly_present_params (p : QueryParams) :
    buildQueryString p = queryStringSpec p := by
  unfold buildQueryString queryStringSpec
  rw [buildQueryParts_eq_slots]
  cases h : (querySlots p).filterMap slotRender with
  | nil => simp
  | cons a l => simp

/-- Witness for C5: a concrete parameter set with a filter needing
encoding, a zero skip and an absent expand. -/
theorem query_string_witness :
    buildQueryString
        { filter := some "contains(Name,\x27Tech\x27)".toList, select := some [],
          top := some 5, skip := some 0, orderby := some "Name asc".toList,
          expand := none } =
      queryStringSpec
        { filter := some "contains(Name,\x27Tech\x27)".toList, select := some [],
          top := some 5, skip := some 0, orderby := some "Name asc".toList,
          expand := none } :=
  query_string_appends_exactly_present_params _

/-- Helper: a successful `authenticate` requires a successful HTTP
status and a parsed body whose `Code` is zero. -/
theorem authenticate_ok_inv (resp : LoginResponse) (now : Nat) (s : CreatioSession)
    (h : authenticate resp now = .ok s) :
    resp.ok = true ∧ ∃ b, resp.body = .ok b ∧ b.Code = 0 := by
  unfold authenticate at h
  split at h
  · exact absurd h (by simp)
  · rename_i hok
    refine ⟨by simpa using hok, ?_⟩
    split at h
    · exact absurd h (by simp)
    · rename_i b hbody
      split at h
      · exact absurd h (by simp)
      · rename_i hcode
        push_neg at hcode
        exact ⟨b, hbody, hcode⟩

/-- Helper: every failing login leaves `authenticate` in the error case. -/
theorem authenticate_error_of_failure (resp : LoginResponse) (now : Nat)
    (h : resp.ok = false ∨ (∃ m, resp.body = .error m) ∨
         ∃ b, resp.body = .ok b ∧ b.Code ≠ 0) :
    ∃ e, authenticate resp now = .error e := by
  cases ha : authenticate resp now with
  | error e => exact ⟨e, rfl⟩
  | ok s =>
    obtain ⟨hok, b, hbody, hcode⟩ := authenticate_ok_inv resp now s ha
    rcases h with h | ⟨m, h⟩ | ⟨b2, h, hb2⟩
    · rw [hok] at h
      exact absurd h (by simp)
    · rw [hbody] at h
      exact absurd h (by simp)
    · rw [hbody] at h
      injection h with h2
      rw [← h2] at hb2
      exact absurd hcode hb2

/-- Helper: a successful `authenticate` returns exactly the freshly
extracted session. -/
theorem authenticate_ok_shape (resp : LoginResponse) (now : Nat) (s : CreatioSession)
    (h : authenticate resp now = .ok s) : s = freshSession resp now := by
  unfold authenticate at h
  split at h
  · exact absurd h (by simp)
  · split at h
    · exact absurd h (by simp)
    · split at h
      · exact absurd h (by simp)
      · injection h with h2
        exact h2.symm

/-- C9: for every client state and every way `authenticate` can fail —
non-success HTTP status, unparsable body, or a body with non-zero `Code`
— the stored session after the call (directly or through
`ensureAuthenticated`) is exactly what it was before, so an expired
session is not cleared and no partial session is stored; and whenever the
call succeeds, the stored session is precisely the fully extracted fresh
session. -/
theorem auth_failure_preserves_session (c : CreatioClient) (resp : LoginResponse) (now : Nat) :
    ((resp.ok = false ∨ (∃ m, resp.body = .error m) ∨
        ∃ b, resp.body = .ok b ∧ b.Code ≠ 0) →
      (c.authRun resp now).1 = c ∧ (c.authRun resp now).2 ≠ none ∧
        (c.ensureAuth resp now).1 = c) ∧
    ((c.authRun resp now).2 = none →
      (c.authRun resp now).1.session = some (freshSession resp now)) := by
  constructor
  · intro hfail
    obtain ⟨e, he⟩ := authenticate_error_of_failure resp now hfail
    have hrun : c.authRun resp now = (c, some e) := by
      unfold CreatioClient.authRun
      rw [he]
    refine ⟨by rw [hrun], by rw [hrun]; exact fun hx => Option.noConfusion hx, ?_⟩
    unfold CreatioClient.ensureAuth
    split
    · rw [hrun]
    · rfl
  · intro hnone
    unfold CreatioClient.authRun at hnone ⊢
    cases ha : authenticate resp now with
    | error e =>
      rw [ha] at hnone
      exact absurd hnone (by simp)
    | ok s =>
      have := authenticate_ok_shape resp now s ha
      simp [this]

/-- Witness for C9: a client holding an expired session keeps it intact
across a rejected login (upstream `Code` is 1), both directly and through
`ensureAuthenticated`, which did attempt the re-login. -/
theorem auth_failure_preserves_session_witness :
    (clientC9.authRun respC9 10).1 = clientC9 ∧
    (clientC9.ensureAuth respC9 10).1 = clientC9 := by
  have hf : respC9.ok = false ∨ (∃ m, respC9.body = .error m) ∨
      ∃ b, respC9.body = .ok b ∧ b.Code ≠ 0 :=
    Or.inr (Or.inr ⟨_, rfl, by decide⟩)
  exact ⟨((auth_failure_preserves_session clientC9 respC9 10).1 hf).1,
         ((auth_failure_preserves_session clientC9 respC9 10).1 hf).2.2⟩

/-- C1: evaluation of the connect route at a failing login.  The claim
says a failed login leaves the Active-Client Pointer exactly as it was;
the code instead promotes the fresh, sessionless client to the
module-level pointer before the test even runs (`createCreatioClient`
calls `setCreatioClient` unconditionally), so after the failed call the
pointer holds the new client.  The dispatcher-side pointer and the
absence of a stored session do behave as claimed, and the streaming
connection-test tool promotes only on success. -/
theorem connect_failed_login_still_promotes_pointer :
    (connectRoute g0C1 cfgC1 respC1 0).2 = false ∧
    (connectRoute g0C1 cfgC1 respC1 0).1.currentClient =
      some { config := cfgC1, session := none } ∧
    (connectRoute g0C1 cfgC1 respC1 0).1.currentClient ≠ g0C1.currentClient ∧
    (connectRoute g0C1 cfgC1 respC1 0).1.mcpClient = g0C1.mcpClient ∧
    (sseTestConnection g0C1 cfgC1 respC1 0).1 = g0C1 := by
  refine ⟨rfl, rfl, ?_, rfl, rfl⟩
  intro h
  exact Option.noConfusion h

/-- C3: evaluation of the extractor at a combined Set-Cookie header that
carries all four known cookies.  The lookahead of the split regex only
recognises names beginning with a letter or underscore, so the comma in
front of the dot-named auth ticket cookie is never a split point: the
ticket is glued to the previous chunk and dropped from the assembled
cookie string.  The same four headers via the multi-value accessor are
all retained in order, and the token is still found directly. -/
theorem combined_header_drops_auth_ticket_cookie :
    (extractSession (headerList (.single (some rawC3)))).cookies =
      "BPMCSRF=csrf123; BPMLOADER=ldr; UserName=alice".toList ∧
    containsSub (".ASPXAUTH".toList) (extractSession (headerList (.single (some rawC3)))).cookies =
      false ∧
    (extractSession (headerList (.single (some rawC3)))).csrfToken = "csrf123".toList ∧
    (extractSession (headerList (.multi multiC3))).cookies =
      "BPMCSRF=csrf123; .ASPXAUTH=ticket456; BPMLOADER=ldr; UserName=alice".toList ∧
    (extractSession (headerList (.multi multiC3))).csrfToken = "csrf123".toList := by
  refine ⟨by decide, by decide, by decide, by decide, by decide⟩

/-- C2 counterexample: the claim that the registry, the streaming
list-tools declaration and the dashboard panel present identical tool
signatures is false — the account-creation tool is declared by the
registry but absent from the dashboard panel. -/
theorem catalogues_disagree_on_dashboard : ¬ cataloguesAgreeClaim := by
  intro h
  have h2 := (h.2
    { name := "create_creatio_account".toList,
      params :=
        [("name".toList, "string".toList, true), ("phone".toList, "string".toList, false),
         ("email".toList, "string".toList, false), ("web".toList, "string".toList, false),
         ("address".toList, "string".toList, false), ("city".toList, "string".toList, false)] }).mp
    (by decide)
  exact absurd h2 (by decide)

/-- C2 amended: the registry `MCP_TOOLS` and the streaming list-tools
declaration agree exactly — same six tools in the same order, with
identical names, parameter names, parameter types and required flags —
while the dashboard panel declares only three of the six tools (query,
get, connection test), each of which carries exactly the registry's
signature. -/
theorem registry_streaming_agree_dashboard_subset :
    MCP_TOOLS.map sigOfDecl = sseTools.map sigOfDecl ∧
    (mcpToolsDash.map sigOfDash).all
        (fun s => decide (s ∈ MCP_TOOLS.map sigOfDecl)) = true ∧
    MCP_TOOLS.map ToolDecl.tname = knownToolNames ∧
    mcpToolsDash.map DashTool.tname =
      ["query_creatio_accounts".toList, "get_creatio_account".toList,
       "test_creatio_connection".toList] := by
  refine ⟨by decide, by decide, by decide, by decide⟩

/-- Helper: the parts accumulated by the extraction loop are exactly the
parsed cookies with known names, in discovery order. -/
theorem collectCookiesGo_parts (headers : List Str) (parts : List Str) (csrf : Str) :
    (collectCookiesGo parts csrf headers).1 =
      parts.reverse ++
        ((headers.filterMap parseCookiePair).filter
          (fun p => knownCookieNames.contains p.1)).map (fun p => p.1 ++ '=' :: p.2) := by
  induction headers generalizing parts csrf with
  | nil => simp [collectCookiesGo]
  | cons h rest ih =>
    unfold collectCookiesGo
    cases hp : parseCookiePair h with
    | none => simp [hp, ih, List.filterMap_cons]
    | some pr =>
      by_cases hm : pr.1 ∈ knownCookieNames
      · simp [hp, hm, ih, List.filterMap_cons, List.filter_cons,
          List.reverse_cons, List.append_assoc]
      · simp [hp, hm, ih, List.filterMap_cons, List.filter_cons]

/-- Supporting theorem for the multi-value accessor path: the assembled
cookie string is the semicolon join of exactly the parsed cookies whose
names are known, in their discovery order (for any header list, however
many known cookies it carries). -/
theorem multi_accessor_retains_known_cookies (headers : List Str) :
    (extractSession headers).cookies =
      joinWith ("; ".toList)
        (((headers.filterMap parseCookiePair).filter
          (fun p => knownCookieNames.contains p.1)).map (fun p => p.1 ++ '=' :: p.2)) := by
  unfold extractSession collectCookies
  simp [collectCookiesGo_parts]

end CreatioConnect
